import Mathlib

/-!
Verification of the WhatsApp ClawdBot repository against its natural-language
specification.  The definitions below are a shallow embedding of the Python
sources:

* `whatsapp_client.py` — the bridge transport: `_send_command`, `_read_stdout`,
  `initialize`, the pending-request dictionary and the readiness event;
* `task_scheduler.py` — `schedule_message`, `_create_recurring_trigger`,
  `cancel_task`, `list_tasks`, over a job store whose operations
  (`add_job` with `replace_existing`, `remove_job`, `get_jobs`) follow the
  contract the spec names ("replace_existing semantics", JobLookupError);
* `gemini_agent.py` — `_execute_tool`, the tool-dispatch boundary;
* `main.py` — `handle_incoming_message` (admin gate, schedule-time rollover)
  and `_tool_send_message` / `_tool_schedule_message`.

Asynchronous code is embedded as explicit state passing: the read loop is a
fold over the list of lines the worker process emits (the end of the list is
end-of-file), and each step returns the new client state together with the
list of observable effects (future resolutions, spawned handlers, log lines,
prints) the Python code performs at that step.
-/

/-! ## String helpers (Python `in`, `int()`, `split`) -/

/-- `subAt needle hay` — `needle` is a leading segment of `hay`
(used to implement Python substring containment). -/
def subAt : List Char → List Char → Bool
  | [], _ => true
  | _ :: _, [] => false
  | a :: as, b :: bs => a = b && subAt as bs

/-- `containsSeq needle hay` — `needle` occurs contiguously inside `hay`. -/
def containsSeq (needle : List Char) : List Char → Bool
  | [] => needle.isEmpty
  | b :: bs => subAt needle (b :: bs) || containsSeq needle bs

/-- Python `needle in hay` on strings. -/
def containsSub (hay needle : String) : Bool :=
  containsSeq needle.data hay.data

/-- Drop leading whitespace characters. -/
def dropWs : List Char → List Char
  | [] => []
  | c :: cs => if c.isWhitespace then dropWs cs else c :: cs

/-- Python `s.strip()`: drop leading and trailing whitespace. -/
def pyStrip (s : String) : String :=
  ⟨((dropWs s.data).reverse |> dropWs).reverse⟩

/-- Python `s.startswith(pre)`. -/
def pyStartsWith (s pre : String) : Bool :=
  subAt pre.data s.data

/-- Python `s.split(sep)` for a single-character separator. -/
def splitOnChar (c : Char) : List Char → List (List Char)
  | [] => [[]]
  | x :: xs =>
    let r := splitOnChar c xs
    if x = c then [] :: r
    else
      match r with
      | y :: ys => (x :: y) :: ys
      | [] => [[x]]

def pySplitChar (c : Char) (s : String) : List String :=
  (splitOnChar c s.data).map String.mk

/-- Value of a non-empty all-digit character list, else `none`. -/
def digitsVal (cs : List Char) : Option Nat :=
  if cs ≠ [] ∧ cs.all Char.isDigit then
    some (cs.foldl (fun acc c => acc * 10 + (c.toNat - 48)) 0)
  else
    none

/-- Python `int(s)`: strip whitespace, optional sign, decimal digits;
`none` models the `ValueError` raise. -/
def pyInt (s : String) : Option Int :=
  match (pyStrip s).data with
  | '+' :: rest => (digitsVal rest).map Int.ofNat
  | '-' :: rest => (digitsVal rest).map (fun n => -(n : Int))
  | cs => (digitsVal cs).map Int.ofNat

/-! ## Transport multiplexer (`whatsapp_client.py`) -/

/-- The fields of a decoded JSON line that `_read_stdout` reads:
`"request_id" in data`, `data.get("success")` (truthiness), `data.get("error")`,
`data.get("error_obj")` presence, `"event" in data`.  A `RawLine` pairs the
raw text with the outcome of `json.loads` (`none` = `JSONDecodeError`). -/
structure JsonData where
  requestId : Option String
  success : Bool
  error : Option String
  errorObj : Option String
  event : Option String
deriving DecidableEq

structure RawLine where
  text : String
  json : Option JsonData
deriving DecidableEq

/-- `WhatsAppClient` state: the `ready_event` flag, the `pending_requests`
dict (correlation id ↦ `future.done()`), and whether an `event_handler`
is registered. -/
structure ClientState where
  readyEvent : Bool
  pendingRequests : List (String × Bool)
  hasEventHandler : Bool
deriving DecidableEq

/-- One observable action of the read loop or of `_send_command`. -/
inductive WaEffect
  | logError (s : String)
  | logDebug (s : String)
  | printOut (s : String)
  | setResult (requestId : String)
  | setException (requestId : String) (msg : String)
  | spawnHandler (event : String)
deriving DecidableEq

/-- `dict.pop(request_id)`: the stored value and the dictionary without
that key, or `none` when the key is absent. -/
def lookupRemove : List (String × Bool) → String → Option (Bool × List (String × Bool))
  | [], _ => none
  | (k, v) :: rest, rid =>
    if k = rid then some (v, rest)
    else
      match lookupRemove rest rid with
      | some (v', rest') => some (v', (k, v) :: rest')
      | none => none

/-- One iteration of `_read_stdout` on a line that was read
(`whatsapp_client.py` lines 101–145), transcribed branch by branch. -/
def processStdoutLine (st : ClientState) (l : RawLine) : ClientState × List WaEffect :=
  let s := pyStrip l.text
  if s = "" then (st, [])
  else if containsSub s "READY" then ({ st with readyEvent := true }, [])
  else
    match l.json with
    | none => (st, [.printOut s])
    | some d =>
      match d.requestId with
      | some rid =>
        match lookupRemove st.pendingRequests rid with
        | some (futDone, rest) =>
          let st' := { st with pendingRequests := rest }
          if futDone then (st', [])
          else if d.success then (st', [.setResult rid])
          else
            let errMsg := d.error.getD "Unknown error"
            let logs := [WaEffect.logError ("Bridge returned error response: " ++ s)]
            let logs :=
              match d.errorObj with
              | some o => logs ++ [WaEffect.logError ("Bridge error_obj: " ++ o)]
              | none => logs
            (st', logs ++ [.setException rid errMsg])
        | none => (st, [])
      | none =>
        match d.event with
        | some ev =>
          if st.hasEventHandler then (st, [.spawnHandler ev]) else (st, [])
        | none => (st, [.logDebug ("Received unknown JSON: " ++ s)])

/-- The `while True` loop of `_read_stdout` over the lines the worker emits;
the end of the list is end-of-file (`if not line: break` — the loop simply
terminates, nothing else happens). -/
def readStdoutLoop (st : ClientState) : List RawLine → ClientState × List WaEffect
  | [] => (st, [])
  | l :: ls =>
    let p := processStdoutLine st l
    let q := readStdoutLoop p.1 ls
    (q.1, p.2 ++ q.2)

/-- `_send_command` registering a fresh pending future
(`self.pending_requests[request_id] = future`). -/
def registerPending (st : ClientState) (rid : String) : ClientState :=
  { st with pendingRequests := st.pendingRequests ++ [(rid, false)] }

/-- The error message of the `asyncio.TimeoutError` branch of `_send_command`:
`raise Exception(f"Command {command} timed out")`. -/
def timeoutMessage (command : String) : String :=
  "Command " ++ command ++ " timed out"

/-- `del self.pending_requests[request_id]` guarded by
`if request_id in self.pending_requests`. -/
def removeIfPendingKey (pend : List (String × Bool)) (rid : String) : List (String × Bool) :=
  if pend.any (fun kv => kv.1 = rid) then pend.filter (fun kv => ¬ kv.1 = rid) else pend

/-- The `except asyncio.TimeoutError` branch of `_send_command`
(`whatsapp_client.py` lines 178–181): remove the pending entry and fail
with the timeout message. -/
def sendCommandTimedOut (st : ClientState) (command rid : String) : ClientState × String :=
  ({ st with pendingRequests := removeIfPendingKey st.pendingRequests rid },
   timeoutMessage command)

/-- Outcome of `initialize()`.  The code awaits `self.ready_event.wait()`:
it completes when the gate opens and otherwise suspends forever.
`startupTimeout` is the outcome the specification claims for a bounded
startup timeout; it is a possible outcome value so that the claim can be
stated, and the embedded code never produces it. -/
inductive InitOutcome
  | ready
  | blocked
  | startupTimeout
deriving DecidableEq

/-- `initialize()` as a function of the stream of stdout lines: the client
starts with the gate closed and an empty pending dict, the reader task
consumes the lines, and `await self.ready_event.wait()` completes exactly
when the gate has been set. -/
def initializeOutcome (hasHandler : Bool) (lines : List RawLine) : InitOutcome :=
  if (readStdoutLoop ⟨false, [], hasHandler⟩ lines).1.readyEvent then .ready else .blocked

/-! ## Dates and times (`datetime` with a fixed timezone, wall clock) -/

/-- A timezone-local wall-clock instant: days since the epoch plus
hour / minute / second / microsecond, compared through `toMicros`. -/
structure DateTime where
  day : Nat
  hour : Nat
  minute : Nat
  second : Nat
  micro : Nat
deriving DecidableEq

def DateTime.toMicros (t : DateTime) : Nat :=
  (((t.day * 24 + t.hour) * 60 + t.minute) * 60 + t.second) * 1000000 + t.micro

def DateTime.valid (t : DateTime) : Prop :=
  t.hour < 24 ∧ t.minute < 60 ∧ t.second < 60 ∧ t.micro < 1000000

/-- `now.replace(hour=hour, minute=minute, second=0, microsecond=0)`. -/
def replaceHM (now : DateTime) (h m : Nat) : DateTime :=
  ⟨now.day, h, m, 0, 0⟩

/-- `t + timedelta(days=n)`. -/
def addDays (t : DateTime) (n : Nat) : DateTime :=
  { t with day := t.day + n }

/-- Python `datetime.weekday()` (Monday = 0); day 0 of the epoch
(1970-01-01) is a Thursday. -/
def weekdayOf (days : Nat) : Nat := (days + 3) % 7

/-- Python `datetime.day` (day of month, 1-based) from days since the
epoch, by the standard civil-from-days conversion. -/
def dayOfMonthOf (days : Nat) : Nat :=
  let z := days + 719468
  let doe := z % 146097
  let yoe := (doe - doe / 1460 + doe / 36524 - doe / 146096) / 365
  let doy := doe - (365 * yoe + yoe / 4 - yoe / 100)
  let mp := (5 * doy + 2) / 153
  doy - (153 * mp + 2) / 5 + 1

/-- The schedule-time computation shared verbatim by the `/schedule`
command handler (`main.py` lines 330–333) and `_tool_schedule_message`
(`main.py` lines 656–659): today at `HH:MM:00`, rolled forward one day
when that instant is not in the future and the pattern is `"once"`. -/
def computeScheduleTime (now : DateTime) (h m : Nat) (pattern : String) : DateTime :=
  let t := replaceHM now h m
  if t.toMicros ≤ now.toMicros ∧ pattern = "once" then addDays t 1 else t

/-! ## Task scheduler (`task_scheduler.py`) -/

/-- An APScheduler trigger as constructed by `task_scheduler.py`: the
`CronTrigger` / `IntervalTrigger` / `DateTrigger` calls with exactly the
fields each call site passes. -/
inductive Trigger
  | cron (dayOfWeek : Option Nat) (dayOfMonth : Option Nat)
      (hour : Option Nat) (minute : Option Nat) (second : Option Nat)
      (timezone : String)
  | interval (unit : String) (n : Int) (startDate : DateTime) (timezone : String)
  | date (runDate : DateTime)
deriving DecidableEq

/-- Result of `_create_recurring_trigger` together with the warnings it
logs (the fallback is the only branch that logs). -/
structure TrigResult where
  trigger : Trigger
  warnings : List String
deriving DecidableEq

/-- The `unit_map` dictionary of `_create_recurring_trigger`. -/
def unitMap (u : String) : Option String :=
  if u = "hours" then some "hours"
  else if u = "hour" then some "hours"
  else if u = "minutes" then some "minutes"
  else if u = "minute" then some "minutes"
  else if u = "days" then some "days"
  else if u = "day" then some "days"
  else none

/-- The final fallback of `_create_recurring_trigger`
(`task_scheduler.py` lines 205–211): log a warning and return a daily
`CronTrigger` built from the start time's hour and minute (no `second`
field is passed). -/
def dailyFallback (timezone : String) (startTime : DateTime) (pattern : String) :
    Except String TrigResult :=
  .ok ⟨.cron none none (some startTime.hour) (some startTime.minute) none timezone,
       ["Unknown pattern " ++ pattern ++ ", defaulting to daily"]⟩

/-- `_create_recurring_trigger(start_time, pattern)`
(`task_scheduler.py` lines 143–211).  `.error` models the uncaught
`ValueError` of `int(parts[1])` on a non-integer segment. -/
def createRecurringTrigger (timezone : String) (startTime : DateTime) (pattern : String) :
    Except String TrigResult :=
  if pattern = "daily" then
    .ok ⟨.cron none none (some startTime.hour) (some startTime.minute)
          (some startTime.second) timezone, []⟩
  else if pattern = "weekly" then
    .ok ⟨.cron (some (weekdayOf startTime.day)) none (some startTime.hour)
          (some startTime.minute) (some startTime.second) timezone, []⟩
  else if pattern = "monthly" then
    .ok ⟨.cron none (some (dayOfMonthOf startTime.day)) (some startTime.hour)
          (some startTime.minute) (some startTime.second) timezone, []⟩
  else if pyStartsWith pattern "every_" then
    match pySplitChar '_' pattern with
    | _ :: p1 :: p2 :: _ =>
      match pyInt p1 with
      | some n =>
        match unitMap p2 with
        | some u => .ok ⟨.interval u n startTime timezone, []⟩
        | none => dailyFallback timezone startTime pattern
      | none => .error ("invalid literal for int() with base 10: " ++ p1)
    | _ => dailyFallback timezone startTime pattern
  else dailyFallback timezone startTime pattern

/-- A job record as `schedule_message` stores it: id, the `kwargs`
(`phone_number`, `message`), the trigger, `misfire_grace_time=300`. -/
structure Job where
  id : String
  phoneNumber : String
  message : String
  trigger : Trigger
  misfireGraceTime : Nat
deriving DecidableEq

/-- Modelled from the spec: the job store the repository drives through
APScheduler, whose `add_job(..., replace_existing=True)` "replaces the
prior task (idempotent upsert), matching replace_existing semantics" —
a job with the same id is replaced in place, otherwise the job is added. -/
def addJobReplace (store : List Job) (j : Job) : List Job :=
  if store.any (fun k => k.id = j.id) then
    store.map (fun k => if k.id = j.id then j else k)
  else store ++ [j]

/-- Modelled from the spec: APScheduler `remove_job`, which removes the
job with the given id and raises `JobLookupError` when no such job exists
(the spec's `TaskNotFound` condition). -/
def removeJob (store : List Job) (taskId : String) : Except String (List Job) :=
  if store.any (fun k => k.id = taskId) then
    .ok (store.filter (fun k => ¬ k.id = taskId))
  else .error ("No job by the id of " ++ taskId ++ " was found")

/-- The trigger selection of `schedule_message`
(`task_scheduler.py` lines 117–124): a recurring trigger when `recurring`
and a truthy (non-empty) `recurrence_pattern` are given, else a
`DateTrigger` at the schedule time. -/
def computeTrigger (tz : String) (scheduleTime : DateTime) (recurring : Bool)
    (recurrencePattern : Option String) : Except String Trigger :=
  match recurring, recurrencePattern with
  | true, some p =>
    if p = "" then .ok (.date scheduleTime)
    else (createRecurringTrigger tz scheduleTime p).map TrigResult.trigger
  | _, _ => .ok (.date scheduleTime)

/-- `schedule_message` (`task_scheduler.py` lines 86–141): pick the task
id (`task_name or f"msg_{uuid4().hex[:8]}"` — `freshId` stands for the
generated token), build the trigger, and `add_job` with
`replace_existing=True` and `misfire_grace_time=300`.  Returns the task id
and the new store; `.error` propagates a trigger-construction raise. -/
def scheduleMessage (tz : String) (store : List Job) (phoneNumber message : String)
    (scheduleTime : DateTime) (recurring : Bool) (recurrencePattern : Option String)
    (taskName : Option String) (freshId : String) :
    Except String (String × List Job) :=
  let taskId :=
    match taskName with
    | some s => if s = "" then freshId else s
    | none => freshId
  match computeTrigger tz scheduleTime recurring recurrencePattern with
  | .error e => .error e
  | .ok trig => .ok (taskId, addJobReplace store ⟨taskId, phoneNumber, message, trig, 300⟩)

/-- `cancel_task` (`task_scheduler.py` lines 239–255): `remove_job`
wrapped in try/except — `True` with the job removed, or `False` with the
store untouched; it never propagates an exception. -/
def cancelTask (store : List Job) (taskId : String) : Bool × List Job :=
  match removeJob store taskId with
  | .ok s => (true, s)
  | .error _ => (false, store)

/-- One summary entry of `list_tasks`: the fields it extracts from a job
(`next_run` is derived by the scheduling library from the trigger and is
not part of the stored record). -/
structure TaskInfo where
  id : String
  phoneNumber : String
  message : String
  trigger : Trigger
deriving DecidableEq

/-- `list_tasks` (`task_scheduler.py` lines 282–304): one summary per
stored job. -/
def listTasks (store : List Job) : List TaskInfo :=
  store.map (fun j => ⟨j.id, j.phoneNumber, j.message, j.trigger⟩)

/-! ## Agent tool dispatch (`gemini_agent.py`) and tool handlers (`main.py`) -/

/-- A Python value as the tool boundary passes it around. -/
inductive PyVal
  | str (s : String)
  | int (n : Int)
  | bool (b : Bool)
deriving DecidableEq

/-- A Python dict at the tool boundary (keyword arguments, result shapes). -/
abbrev PyDict := List (String × PyVal)

/-- A registered tool handler: an async callable on keyword arguments
that either returns a result dict or raises (`Except.error`). -/
abbrev ToolHandler := PyDict → Except String PyDict

/-- `_execute_tool(tool_name, tool_args)` (`gemini_agent.py` lines
434–448): look the handler up by name — an unregistered name yields an
error dict; a handler raise is caught and turned into an error dict; a
normal return is passed through.  The function is total: no exception
crosses the tool-call boundary. -/
def executeTool (handlers : List (String × ToolHandler)) (toolName : String)
    (toolArgs : PyDict) : PyDict :=
  match List.lookup toolName handlers with
  | none => [("error", .str ("Unknown tool: " ++ toolName ++ ". No handler registered."))]
  | some h =>
    match h toolArgs with
    | .ok result => result
    | .error e => [("error", .str ("Tool " ++ toolName ++ " failed: " ++ e))]

/-- `_tool_send_message` (`main.py` lines 635–641), with the outcome of
`wa_client.send_message` passed in explicitly: a success dict, or
`{"error": str(e)}` when the send raises. -/
def toolSendMessage (sendOutcome : Except String Unit) (phoneNumber message : String) :
    PyDict :=
  match sendOutcome with
  | .ok _ => [("status", .str "sent"), ("to", .str phoneNumber), ("message", .str message)]
  | .error e => [("error", .str e)]

/-! ## Incoming-message admin gate (`main.py`) -/

/-- An observable action of `handle_incoming_message`. -/
inductive BotEffect
  | logLine (s : String)
  | sendMessage (target : String) (body : String)
  | scheduleTask (id : String)
  | indexMessage (id : String)
  | agentCall (userId : String) (content : String)
deriving DecidableEq

def BotEffect.isLog : BotEffect → Bool
  | .logLine _ => true
  | _ => false

/-- The arguments of `handle_incoming_message`. -/
structure IncomingMsg where
  messageId : String
  sender : String
  chatId : String
  content : String
  fromMe : Bool
deriving DecidableEq

/-- `normalized_sender = sender.split("@")[0]` then strip a leading `+`
(`main.py` lines 215–217). -/
def normalizedSenderOf (sender : String) : String :=
  let base : String :=
    match pySplitChar '@' sender with
    | x :: _ => x
    | [] => ""
  if pyStartsWith base "+" then ⟨base.data.drop 1⟩ else base

/-- `clean_admin = admin_num.replace("+", "").strip()` (`main.py` line 231). -/
def cleanAdmin (adminNum : String) : String :=
  pyStrip ⟨adminNum.data.filter (fun c => ¬ c = '+')⟩

/-- The authorization check of `handle_incoming_message`
(`main.py` lines 221–234): a self-message is authorized; otherwise the
sender must equal some admin number verbatim, or its normalized form must
equal the admin number stripped of `+` and whitespace. -/
def isAuthorized (adminNumbers : List String) (sender : String) (fromMe : Bool) : Bool :=
  if fromMe then true
  else adminNumbers.any (fun a =>
    sender = a ∨ normalizedSenderOf sender = cleanAdmin a)

/-- The entry of `handle_incoming_message` (`main.py` lines 191–242) up to
and including the authorization gate.  `rest` is the remainder of the
handler (sleep mode, slash commands, RAG indexing, the agent call and the
reply) — the theorems about the gate quantify over every such remainder,
so nothing past the gate is constrained by this definition. -/
def handleIncomingMessage (adminNumbers sentMessageIds : List String)
    (rest : IncomingMsg → List BotEffect) (msg : IncomingMsg) : List BotEffect :=
  if msg.fromMe ∧ containsSub msg.content "[BOT]" then
    [.logLine "Self-message detected",
     .logLine ("Ignoring own output message (signature detected): " ++ msg.messageId)]
  else if msg.fromMe ∧ sentMessageIds.contains msg.messageId then
    [.logLine "Self-message detected",
     .logLine ("Ignoring own output message (ID tracked): " ++ msg.messageId)]
  else
    let selfLogs : List BotEffect :=
      if msg.fromMe then
        [BotEffect.logLine "Self-message detected",
         BotEffect.logLine "Processing Note to Self command"]
      else []
    let receivedLog := [BotEffect.logLine ("Received message from: " ++ msg.sender)]
    if isAuthorized adminNumbers msg.sender msg.fromMe then
      selfLogs ++ receivedLog ++ rest msg
    else
      selfLogs ++ receivedLog ++
        [.logLine ("Unauthorized message from " ++ msg.sender ++
          " (Normalized: " ++ normalizedSenderOf msg.sender ++ ")")]

/-! ## Helper lemmas -/

theorem subAt_append_self (cs ys : List Char) : subAt cs (cs ++ ys) = true := by
  induction cs with
  | nil => rfl
  | cons a as ih => simp [subAt, ih]

theorem containsSeq_of_subAt {n h : List Char} (hs : subAt n h = true) :
    containsSeq n h = true := by
  cases h with
  | nil =>
    cases n with
    | nil => rfl
    | cons a as => simp [subAt] at hs
  | cons b bs => simp [containsSeq, hs]

theorem containsSeq_append_left {n h : List Char} (xs : List Char)
    (hc : containsSeq n h = true) : containsSeq n (xs ++ h) = true := by
  induction xs with
  | nil => simpa using hc
  | cons x xs ih => simp [containsSeq, ih]

/-- A string occurs inside any string of which it is the middle segment. -/
theorem containsSub_middle (a b c : String) : containsSub (a ++ b ++ c) b = true := by
  unfold containsSub
  rw [String.data_append, String.data_append, List.append_assoc]
  exact containsSeq_append_left a.data
    (containsSeq_of_subAt (subAt_append_self b.data c.data))

theorem lookupRemove_eq_none {pend : List (String × Bool)} {rid : String}
    (h : ∀ kv ∈ pend, kv.1 ≠ rid) : lookupRemove pend rid = none := by
  induction pend with
  | nil => rfl
  | cons kv rest ih =>
    have h1 : kv.1 ≠ rid := h kv (List.mem_cons_self kv rest)
    have h2 : ∀ x ∈ rest, x.1 ≠ rid := fun x hx => h x (List.mem_cons_of_mem kv hx)
    simp [lookupRemove, h1, ih h2]

/-- A response line whose correlation id is not in the pending set is a
no-op for the read loop: state unchanged, no effect. -/
theorem processUnknownRid {st : ClientState} {l : RawLine} {d : JsonData} {rid : String}
    (htext : pyStrip l.text ≠ "") (hready : containsSub (pyStrip l.text) "READY" = false)
    (hjson : l.json = some d) (hrid : d.requestId = some rid)
    (hfresh : ∀ kv ∈ st.pendingRequests, kv.1 ≠ rid) :
    processStdoutLine st l = (st, []) := by
  unfold processStdoutLine
  simp [htext, hready, hjson, hrid, lookupRemove_eq_none hfresh]

/-- A no-op line leaves the rest of the read loop unchanged. -/
theorem readLoop_skip {st : ClientState} {l : RawLine}
    (h : processStdoutLine st l = (st, [])) (rest : List RawLine) :
    readStdoutLoop st (l :: rest) = readStdoutLoop st rest := by
  conv_lhs => rw [readStdoutLoop]
  rw [h]
  simp only [List.nil_append]

theorem containsSub_empty_ready : containsSub "" "READY" = false := by decide

/-- The readiness gate after one read-loop step: it stays open once open,
and it opens exactly on a line containing `READY`. -/
theorem readyEvent_step (st : ClientState) (l : RawLine) :
    (processStdoutLine st l).1.readyEvent
      = (st.readyEvent || containsSub (pyStrip l.text) "READY") := by
  unfold processStdoutLine
  by_cases h1 : pyStrip l.text = ""
  · rw [h1]
    simp [containsSub_empty_ready]
  · by_cases h2 : containsSub (pyStrip l.text) "READY" = true
    · simp [h1, h2]
    · simp only [Bool.not_eq_true] at h2
      simp only [h1, h2, if_false, Bool.or_false]
      rcases l with ⟨text, json⟩
      cases json with
      | none => simp
      | some d =>
        rcases d with ⟨rid?, succ, err, eobj, ev?⟩
        cases rid? with
        | some rid =>
          cases hlr : lookupRemove st.pendingRequests rid with
          | none => simp [hlr]
          | some p =>
            obtain ⟨futDone, rest⟩ := p
            cases futDone <;> cases succ <;> cases eobj <;> simp [hlr]
        | none =>
          cases ev? with
          | some ev => cases hh : st.hasEventHandler <;> simp [hh]
          | none => simp

/-- The readiness gate after the whole read loop: open exactly when it was
already open or some line contains `READY`. -/
theorem readyEvent_loop (st : ClientState) (lines : List RawLine) :
    (readStdoutLoop st lines).1.readyEvent
      = (st.readyEvent || lines.any (fun l => containsSub (pyStrip l.text) "READY")) := by
  induction lines generalizing st with
  | nil => simp [readStdoutLoop]
  | cons l ls ih =>
    show (readStdoutLoop (processStdoutLine st l).1 ls).1.readyEvent = _
    rw [ih, readyEvent_step]
    simp [Bool.or_assoc]

/-! ## Claim C1 -/

/-- C1: when `_send_command(command, params)` gets no matching response
within the 30-second deadline, the call fails with the timeout error whose
message names the command (`Command {command} timed out`), the pending
entry for its correlation id is removed, and a response line arriving
afterward for that id is a no-op for the read loop: it resolves nothing,
changes no state, and the loop continues with the next line. -/
theorem c1_timeout_removes_pending_late_response_noop
    (st : ClientState) (command rid : String) (d : JsonData) (l : RawLine)
    (rest : List RawLine)
    (hfresh : ∀ kv ∈ st.pendingRequests, kv.1 ≠ rid)
    (htext : pyStrip l.text ≠ "") (hready : containsSub (pyStrip l.text) "READY" = false)
    (hjson : l.json = some d) (hrid : d.requestId = some rid) :
    (sendCommandTimedOut (registerPending st rid) command rid).2
        = "Command " ++ command ++ " timed out" ∧
    containsSub (sendCommandTimedOut (registerPending st rid) command rid).2 command = true ∧
    (sendCommandTimedOut (registerPending st rid) command rid).1.pendingRequests
        = st.pendingRequests ∧
    processStdoutLine (sendCommandTimedOut (registerPending st rid) command rid).1 l
        = ((sendCommandTimedOut (registerPending st rid) command rid).1, []) ∧
    readStdoutLoop (sendCommandTimedOut (registerPending st rid) command rid).1 (l :: rest)
        = readStdoutLoop (sendCommandTimedOut (registerPending st rid) command rid).1 rest := by
  have hpend : (sendCommandTimedOut (registerPending st rid) command rid).1.pendingRequests
      = st.pendingRequests := by
    show removeIfPendingKey (st.pendingRequests ++ [(rid, false)]) rid = st.pendingRequests
    unfold removeIfPendingKey
    rw [if_pos (by simp)]
    rw [List.filter_append]
    have h2 : List.filter (fun kv => ¬ kv.1 = rid) [(rid, false)] = [] := by simp
    rw [h2, List.append_nil]
    rw [List.filter_eq_self]
    intro kv hkv
    simpa using hfresh kv hkv
  have hfr2 : ∀ kv ∈ (sendCommandTimedOut (registerPending st rid) command rid).1.pendingRequests,
      kv.1 ≠ rid := by
    rw [hpend]; exact hfresh
  have hstep := processUnknownRid htext hready hjson hrid hfr2
  exact ⟨rfl, containsSub_middle "Command " command " timed out", hpend, hstep,
    readLoop_skip hstep rest⟩

/-- Witness for C1: command `send_message`, correlation id `rid-1`, an
empty initial pending set, and a late response for `rid-1`. -/
theorem c1_timeout_witness :
    (sendCommandTimedOut (registerPending ⟨true, [], true⟩ "rid-1") "send_message" "rid-1").2
        = "Command " ++ "send_message" ++ " timed out" ∧
    containsSub (sendCommandTimedOut (registerPending ⟨true, [], true⟩ "rid-1")
        "send_message" "rid-1").2 "send_message" = true ∧
    (sendCommandTimedOut (registerPending ⟨true, [], true⟩ "rid-1")
        "send_message" "rid-1").1.pendingRequests = ([] : List (String × Bool)) ∧
    processStdoutLine (sendCommandTimedOut (registerPending ⟨true, [], true⟩ "rid-1")
        "send_message" "rid-1").1
        ⟨"\x7b\x22request_id\x22: \x22rid-1\x22, \x22success\x22: true\x7d",
         some ⟨some "rid-1", true, none, none, none⟩⟩
      = ((sendCommandTimedOut (registerPending ⟨true, [], true⟩ "rid-1")
          "send_message" "rid-1").1, []) ∧
    readStdoutLoop (sendCommandTimedOut (registerPending ⟨true, [], true⟩ "rid-1")
        "send_message" "rid-1").1
        [⟨"\x7b\x22request_id\x22: \x22rid-1\x22, \x22success\x22: true\x7d",
          some ⟨some "rid-1", true, none, none, none⟩⟩]
      = readStdoutLoop (sendCommandTimedOut (registerPending ⟨true, [], true⟩ "rid-1")
          "send_message" "rid-1").1 [] :=
  c1_timeout_removes_pending_late_response_noop ⟨true, [], true⟩ "send_message" "rid-1"
    ⟨some "rid-1", true, none, none, none⟩
    ⟨"\x7b\x22request_id\x22: \x22rid-1\x22, \x22success\x22: true\x7d",
     some ⟨some "rid-1", true, none, none, none⟩⟩
    [] (by decide) (by decide) (by decide) rfl rfl

/-! ## Claim C2 -/

/-- C2 counterexample: end-of-file is reached (`if not line: break`) while
the PendingCall for `req-1` is still outstanding.  The read loop performs
no effect at all — in particular it resolves no outstanding PendingCall
with a `TransportClosed` (or any other) error — and the entry stays in the
pending set, contradicting the claim that every outstanding PendingCall is
resolved with a `TransportClosed` error. -/
theorem c2_counterexample :
    readStdoutLoop ⟨false, [("req-1", false)], true⟩ []
        = (⟨false, [("req-1", false)], true⟩, []) ∧
    (⟨false, [("req-1", false)], true⟩ : ClientState).pendingRequests ≠ [] :=
  ⟨rfl, by decide⟩

/-- C2 (amended): when the worker's output stream reaches end-of-file, the
read loop terminates, but outstanding PendingCalls are not resolved: the
pending set is left exactly as it was and no resolution effect (no
`TransportClosed` error) is produced — each outstanding call only fails
later through its own 30-second timeout. -/
theorem c2_amended_eof_terminates_without_resolving (st : ClientState) :
    readStdoutLoop st [] = (st, []) := rfl

/-! ## Claim C3 -/

/-- C3 counterexample: a line stream in which the READY marker never
appears.  `initialize()` stays suspended on `self.ready_event.wait()`
(outcome `blocked`); it does not fail with a `StartupTimeout` error after
any bounded startup timeout, because no such timeout exists in the code. -/
theorem c3_counterexample :
    initializeOutcome true [] = InitOutcome.blocked ∧
    InitOutcome.blocked ≠ InitOutcome.startupTimeout :=
  ⟨rfl, by decide⟩

/-- C3 (amended): `initialize()` suspends the caller until the readiness
gate is opened by a line containing the READY marker; there is no bounded
startup timeout — the outcome is never `StartupTimeout`, and with no READY
line the caller stays suspended.  The gate is monotone: one read-loop step
turns it on exactly on a READY line and never turns it off, so it
transitions from not-ready to ready exactly once. -/
theorem c3_amended_gate_no_startup_timeout (hasHandler : Bool) (lines : List RawLine)
    (st : ClientState) (l : RawLine) :
    initializeOutcome hasHandler lines ≠ InitOutcome.startupTimeout ∧
    (initializeOutcome hasHandler lines = InitOutcome.ready ↔
       ∃ x ∈ lines, containsSub (pyStrip x.text) "READY" = true) ∧
    (processStdoutLine st l).1.readyEvent
       = (st.readyEvent || containsSub (pyStrip l.text) "READY") := by
  refine ⟨?_, ?_, readyEvent_step st l⟩
  · unfold initializeOutcome
    split <;> simp
  · unfold initializeOutcome
    rw [readyEvent_loop]
    simp [List.any_eq_true]

/-! ## Claim C9 -/

/-- C9 counterexample: a decoded response record for id `unknown-9` while
only `known-1` is pending.  The read-loop step leaves the state unchanged
and produces an empty effect list — in particular it emits no log entry,
contradicting the claim that the unknown-id response is "dropped and
logged". -/
theorem c9_counterexample :
    processStdoutLine ⟨true, [("known-1", false)], true⟩
        ⟨"\x7b\x22request_id\x22: \x22unknown-9\x22, \x22success\x22: true\x7d",
         some ⟨some "unknown-9", true, none, none, none⟩⟩
      = (⟨true, [("known-1", false)], true⟩, []) := by decide

/-- C9 (amended): when the read loop decodes a response record whose
`request_id` matches no entry in the pending set, the response is dropped
*silently*: the pending set is unchanged, no future is resolved, no log
entry is emitted, and the read loop continues to the next line without
crashing. -/
theorem c9_amended_unknown_id_dropped_silently
    (st : ClientState) (l : RawLine) (d : JsonData) (rid : String) (rest : List RawLine)
    (htext : pyStrip l.text ≠ "") (hready : containsSub (pyStrip l.text) "READY" = false)
    (hjson : l.json = some d) (hrid : d.requestId = some rid)
    (hunknown : ∀ kv ∈ st.pendingRequests, kv.1 ≠ rid) :
    processStdoutLine st l = (st, []) ∧
    readStdoutLoop st (l :: rest) = readStdoutLoop st rest :=
  have h := processUnknownRid htext hready hjson hrid hunknown
  ⟨h, readLoop_skip h rest⟩

/-- Witness for C9 (amended): pending set `[("kn-2", true)]`, response for
unmatched id `unk-x`, one further line in the stream. -/
theorem c9_amended_witness :
    processStdoutLine ⟨false, [("kn-2", true)], false⟩
        ⟨"\x7b\x22request_id\x22: \x22unk-x\x22, \x22success\x22: false\x7d",
         some ⟨some "unk-x", false, some "boom", none, none⟩⟩
      = (⟨false, [("kn-2", true)], false⟩, []) ∧
    readStdoutLoop ⟨false, [("kn-2", true)], false⟩
        [⟨"\x7b\x22request_id\x22: \x22unk-x\x22, \x22success\x22: false\x7d",
          some ⟨some "unk-x", false, some "boom", none, none⟩⟩,
         ⟨"bridge booting", none⟩]
      = readStdoutLoop ⟨false, [("kn-2", true)], false⟩ [⟨"bridge booting", none⟩] :=
  c9_amended_unknown_id_dropped_silently ⟨false, [("kn-2", true)], false⟩
    ⟨"\x7b\x22request_id\x22: \x22unk-x\x22, \x22success\x22: false\x7d",
     some ⟨some "unk-x", false, some "boom", none, none⟩⟩
    ⟨some "unk-x", false, some "boom", none, none⟩ "unk-x" [⟨"bridge booting", none⟩]
    (by decide) (by decide) rfl rfl (by decide)

/-! ## Claim C4 -/

/-- C4: for `/schedule` and the `schedule_message` tool with pattern
`once`, whenever today's `HH:MM` instant is not after the current time it
rolls forward by exactly one day; and in every case (given a valid current
time and `HH:MM` values in range, which is the domain on which
`now.replace` does not raise) the computed one-shot run time is strictly
in the future. -/
theorem c4_once_rolls_forward_one_day (now : DateTime) (h m : Nat)
    (hh : h < 24) (hm : m < 60) (hv : now.valid) :
    ((replaceHM now h m).toMicros ≤ now.toMicros →
        computeScheduleTime now h m "once" = addDays (replaceHM now h m) 1) ∧
    now.toMicros < (computeScheduleTime now h m "once").toMicros := by
  obtain ⟨hvh, hvm, hvs, hvu⟩ := hv
  unfold computeScheduleTime
  by_cases hc : (replaceHM now h m).toMicros ≤ now.toMicros
  · rw [if_pos ⟨hc, rfl⟩]
    refine ⟨fun _ => rfl, ?_⟩
    unfold DateTime.toMicros replaceHM addDays at *
    simp only at *
    omega
  · rw [if_neg (fun hand => hc hand.1)]
    refine ⟨fun hx => absurd hx hc, ?_⟩
    unfold DateTime.toMicros replaceHM at *
    simp only at *
    omega

/-- Witness for C4: current time 15:00:30 on day 20700, requested time
14:30 (already past), pattern `once`: the instant rolls to day 20701. -/
theorem c4_once_witness :
    ((replaceHM ⟨20700, 15, 0, 30, 0⟩ 14 30).toMicros ≤ (⟨20700, 15, 0, 30, 0⟩ : DateTime).toMicros →
        computeScheduleTime ⟨20700, 15, 0, 30, 0⟩ 14 30 "once"
          = addDays (replaceHM ⟨20700, 15, 0, 30, 0⟩ 14 30) 1) ∧
    (⟨20700, 15, 0, 30, 0⟩ : DateTime).toMicros
        < (computeScheduleTime ⟨20700, 15, 0, 30, 0⟩ 14 30 "once").toMicros :=
  c4_once_rolls_forward_one_day ⟨20700, 15, 0, 30, 0⟩ 14 30 (by decide) (by decide)
    ⟨by decide, by decide, by decide, by decide⟩

/-! ## Claim C5 -/

/-- The pattern shapes `_create_recurring_trigger` recognizes: the three
named patterns, and `every_<int>_<unit>` with a unit in its `unit_map`. -/
def recognizedPattern (pattern : String) : Bool :=
  pattern = "daily" || pattern = "weekly" || pattern = "monthly" ||
  (pyStartsWith pattern "every_" &&
    match pySplitChar '_' pattern with
    | _ :: p1 :: p2 :: _ => (pyInt p1).isSome && (unitMap p2).isSome
    | _ => false)

/-- The pattern shapes on which `_create_recurring_trigger` raises:
`every_…` with at least three `_`-separated segments whose second segment
is not an integer literal, so `int(parts[1])` raises `ValueError`. -/
def raisingPattern (pattern : String) : Bool :=
  pyStartsWith pattern "every_" &&
    match pySplitChar '_' pattern with
    | _ :: p1 :: _ :: _ => (pyInt p1).isNone
    | _ => false

/-- C5 counterexample: the unrecognized pattern `every_x_hours`.
`_create_recurring_trigger` does not return the daily fallback for it —
`int("x")` raises `ValueError`, which propagates out of the function,
contradicting the claim that every unrecognized pattern yields a logged
daily fallback and never raises. -/
theorem c5_counterexample :
    createRecurringTrigger "UTC" ⟨20700, 8, 30, 0, 0⟩ "every_x_hours"
      = Except.error ("invalid literal for int() with base 10: x") := by rfl

/-- C5 (amended): for every recurrence pattern that is not one of the
recognized shapes *and* is not of the raising shape `every_X_…` with a
non-integer `X` (which raises `ValueError` instead), the function returns
a daily Cron trigger at the originally requested start time's hour and
minute (seconds unspecified) and logs the fallback warning, making it
observable; on that domain it does not raise. -/
theorem c5_amended_fallback_daily_logged (tz : String) (startTime : DateTime)
    (pattern : String)
    (hrec : recognizedPattern pattern = false)
    (hraise : raisingPattern pattern = false) :
    createRecurringTrigger tz startTime pattern
      = Except.ok ⟨.cron none none (some startTime.hour) (some startTime.minute) none tz,
          ["Unknown pattern " ++ pattern ++ ", defaulting to daily"]⟩ := by
  unfold recognizedPattern at hrec
  unfold raisingPattern at hraise
  simp only [Bool.or_eq_false_iff, Bool.and_eq_false_iff, decide_eq_false_iff_not] at hrec
  obtain ⟨⟨⟨hd, hw⟩, hm⟩, hev⟩ := hrec
  unfold createRecurringTrigger dailyFallback
  rw [if_neg hd, if_neg hw, if_neg hm]
  by_cases hs : pyStartsWith pattern "every_" = true
  · rw [if_pos hs]
    simp only [Bool.and_eq_false_iff] at hraise
    rcases hev with hev | hev
    · rw [hs] at hev; simp at hev
    · rcases hraise with hraise | hraise
      · rw [hs] at hraise; simp at hraise
      · cases hsp : pySplitChar '_' pattern with
        | nil => rfl
        | cons a rest =>
          cases rest with
          | nil => rfl
          | cons p1 rest2 =>
            cases rest2 with
            | nil => rfl
            | cons p2 rest3 =>
              rw [hsp] at hev hraise
              cases hpi : pyInt p1 with
              | none => simp [hpi] at hraise
              | some n =>
                cases hum : unitMap p2 with
                | none => simp [hpi, hum]
                | some u => simp [hpi, hum] at hev
  · rw [if_neg hs]

/-- Witness for C5 (amended): the unrecognized, non-raising pattern
`hourly` at start time 08:30. -/
theorem c5_amended_witness :
    createRecurringTrigger "UTC" ⟨20700, 8, 30, 0, 0⟩ "hourly"
      = Except.ok ⟨.cron none none (some 8) (some 30) none "UTC",
          ["Unknown pattern " ++ "hourly" ++ ", defaulting to daily"]⟩ :=
  c5_amended_fallback_daily_logged "UTC" ⟨20700, 8, 30, 0, 0⟩ "hourly"
    (by decide) (by decide)

/-! ## Claim C6 -/

/-- Replacing every job whose id matches and then filtering on that id
yields one copy of the replacement per previous occurrence. -/
theorem filter_map_replace (store : List Job) (tid : String) (j : Job)
    (hj : j.id = tid) :
    (store.map (fun k => if k.id = tid then j else k)).filter (fun k => k.id = tid)
      = List.replicate (store.countP (fun k => k.id = tid)) j := by
  induction store with
  | nil => rfl
  | cons a as ih =>
    by_cases h : a.id = tid <;>
      simp [List.countP_cons, h, hj, List.replicate_succ, ih]

/-- C6: `schedule_message` with an already-present task id replaces the
prior task rather than raising or duplicating — it returns the same id,
the store keeps its size, and exactly one job carries that id afterward,
holding the newly supplied target, body, and trigger. -/
theorem c6_schedule_existing_id_upserts
    (tz : String) (store : List Job) (pn msg : String) (t : DateTime)
    (recurring : Bool) (rp : Option String) (tid freshId : String) (trig : Trigger)
    (hne : tid ≠ "")
    (hcount : store.countP (fun k => k.id = tid) = 1)
    (htrig : computeTrigger tz t recurring rp = .ok trig) :
    scheduleMessage tz store pn msg t recurring rp (some tid) freshId
        = .ok (tid, addJobReplace store ⟨tid, pn, msg, trig, 300⟩) ∧
    (addJobReplace store ⟨tid, pn, msg, trig, 300⟩).filter (fun k => k.id = tid)
        = [⟨tid, pn, msg, trig, 300⟩] ∧
    (addJobReplace store ⟨tid, pn, msg, trig, 300⟩).length = store.length := by
  have hany : store.any (fun k => k.id = tid) = true := by
    rw [List.any_eq_true]
    have hpos : 0 < store.countP (fun k => k.id = tid) := by omega
    rw [List.countP_pos_iff] at hpos
    obtain ⟨a, ha, hpa⟩ := hpos
    exact ⟨a, ha, hpa⟩
  have hrepl : addJobReplace store ⟨tid, pn, msg, trig, 300⟩
      = store.map (fun k => if k.id = (⟨tid, pn, msg, trig, 300⟩ : Job).id
          then ⟨tid, pn, msg, trig, 300⟩ else k) := by
    unfold addJobReplace
    rw [if_pos hany]
  refine ⟨?_, ?_, ?_⟩
  · unfold scheduleMessage
    rw [htrig]
    simp [hne]
  · rw [hrepl, filter_map_replace store tid _ rfl, hcount]
    rfl
  · rw [hrepl, List.length_map]

/-- Witness for C6: a two-job store in which id `t1` already exists; it is
replaced by the newly supplied message for `201281835346`. -/
theorem c6_upsert_witness :
    scheduleMessage "UTC"
        [⟨"t1", "111", "old", .date ⟨20700, 8, 0, 0, 0⟩, 300⟩,
         ⟨"t2", "222", "keep", .date ⟨20700, 9, 0, 0, 0⟩, 300⟩]
        "201281835346" "Good morning" ⟨20701, 14, 30, 0, 0⟩ false none
        (some "t1") "msg_fresh01"
        = .ok ("t1", addJobReplace
            [⟨"t1", "111", "old", .date ⟨20700, 8, 0, 0, 0⟩, 300⟩,
             ⟨"t2", "222", "keep", .date ⟨20700, 9, 0, 0, 0⟩, 300⟩]
            ⟨"t1", "201281835346", "Good morning", .date ⟨20701, 14, 30, 0, 0⟩, 300⟩) ∧
    (addJobReplace
        [⟨"t1", "111", "old", .date ⟨20700, 8, 0, 0, 0⟩, 300⟩,
         ⟨"t2", "222", "keep", .date ⟨20700, 9, 0, 0, 0⟩, 300⟩]
        ⟨"t1", "201281835346", "Good morning", .date ⟨20701, 14, 30, 0, 0⟩, 300⟩).filter
          (fun k => k.id = "t1")
        = [⟨"t1", "201281835346", "Good morning", .date ⟨20701, 14, 30, 0, 0⟩, 300⟩] ∧
    (addJobReplace
        [⟨"t1", "111", "old", .date ⟨20700, 8, 0, 0, 0⟩, 300⟩,
         ⟨"t2", "222", "keep", .date ⟨20700, 9, 0, 0, 0⟩, 300⟩]
        ⟨"t1", "201281835346", "Good morning", .date ⟨20701, 14, 30, 0, 0⟩, 300⟩).length
        = ([⟨"t1", "111", "old", .date ⟨20700, 8, 0, 0, 0⟩, 300⟩,
            ⟨"t2", "222", "keep", .date ⟨20700, 9, 0, 0, 0⟩, 300⟩] : List Job).length :=
  c6_schedule_existing_id_upserts "UTC"
    [⟨"t1", "111", "old", .date ⟨20700, 8, 0, 0, 0⟩, 300⟩,
     ⟨"t2", "222", "keep", .date ⟨20700, 9, 0, 0, 0⟩, 300⟩]
    "201281835346" "Good morning" ⟨20701, 14, 30, 0, 0⟩ false none
    "t1" "msg_fresh01" (.date ⟨20701, 14, 30, 0, 0⟩)
    (by decide) (by decide) rfl

/-! ## Claim C7 -/

/-- C7: `cancel_task` on a missing id returns `false`, never throws, and
leaves the store unchanged; on a present id it returns `true` and a
subsequent `list_tasks` omits that id. -/
theorem c7_cancel_task_boolean_and_removal (store : List Job) (tid : String) :
    ((∀ j ∈ store, j.id ≠ tid) → cancelTask store tid = (false, store)) ∧
    ((∃ j ∈ store, j.id = tid) →
        (cancelTask store tid).1 = true ∧
        ∀ t ∈ listTasks (cancelTask store tid).2, t.id ≠ tid) := by
  constructor
  · intro hmiss
    unfold cancelTask removeJob
    rw [if_neg]
    simp only [List.any_eq_true, decide_eq_true_eq]
    rintro ⟨j, hj, hid⟩
    exact hmiss j hj hid
  · rintro ⟨j, hj, hid⟩
    have hany : store.any (fun k => k.id = tid) = true := by
      rw [List.any_eq_true]
      exact ⟨j, hj, by simp [hid]⟩
    unfold cancelTask removeJob
    rw [if_pos hany]
    refine ⟨rfl, ?_⟩
    intro t ht
    simp only [listTasks, List.mem_map, List.mem_filter] at ht
    obtain ⟨k, ⟨_, hk⟩, rfl⟩ := ht
    simpa using hk

/-- Witness for C7: a one-job store; cancelling missing id `nope` is a
no-op returning `false`, and cancelling `t9` returns `true` with the
listing omitting `t9`. -/
theorem c7_cancel_witness :
    cancelTask [⟨"t9", "333", "hello", .date ⟨20700, 10, 0, 0, 0⟩, 300⟩] "nope"
        = (false, [⟨"t9", "333", "hello", .date ⟨20700, 10, 0, 0, 0⟩, 300⟩]) ∧
    ((cancelTask [⟨"t9", "333", "hello", .date ⟨20700, 10, 0, 0, 0⟩, 300⟩] "t9").1 = true ∧
      ∀ t ∈ listTasks
          (cancelTask [⟨"t9", "333", "hello", .date ⟨20700, 10, 0, 0, 0⟩, 300⟩] "t9").2,
        t.id ≠ "t9") :=
  ⟨(c7_cancel_task_boolean_and_removal
      [⟨"t9", "333", "hello", .date ⟨20700, 10, 0, 0, 0⟩, 300⟩] "nope").1 (by decide),
   (c7_cancel_task_boolean_and_removal
      [⟨"t9", "333", "hello", .date ⟨20700, 10, 0, 0, 0⟩, 300⟩] "t9").2
      ⟨⟨"t9", "333", "hello", .date ⟨20700, 10, 0, 0, 0⟩, 300⟩, by decide, rfl⟩⟩

/-! ## Claim C8 -/

/-- C8: every tool invocation dispatched by the agent returns a structured
result dictionary — `executeTool` is a total function into a dict.  When
the requested name has no registered handler, or the handler raises, the
dispatcher returns an `{error: string}` dictionary; no exception crosses
the boundary.  `_tool_send_message` likewise converts a send failure into
an `{error: string}` dictionary. -/
theorem c8_tool_dispatch_structured_errors
    (handlers : List (String × ToolHandler)) (name : String) (args : PyDict) :
    (List.lookup name handlers = none →
        executeTool handlers name args
          = [("error", .str ("Unknown tool: " ++ name ++ ". No handler registered."))]) ∧
    (∀ h e, List.lookup name handlers = some h → h args = .error e →
        executeTool handlers name args
          = [("error", .str ("Tool " ++ name ++ " failed: " ++ e))]) ∧
    (∀ h r, List.lookup name handlers = some h → h args = .ok r →
        executeTool handlers name args = r) ∧
    (∀ e pn m, toolSendMessage (.error e) pn m = [("error", .str e)]) := by
  refine ⟨?_, ?_, ?_, ?_⟩
  · intro hnone
    unfold executeTool
    rw [hnone]
  · intro h e hsome herr
    unfold executeTool
    rw [hsome]
    simp [herr]
  · intro h r hsome hok
    unfold executeTool
    rw [hsome]
    simp [hok]
  · intro e pn m
    rfl

/-- Witness for C8: an empty registry (unknown tool) and a handler that
raises; both yield error dicts, and a failing send yields an error dict. -/
theorem c8_tool_dispatch_witness :
    executeTool [] "send_message" []
        = [("error", .str ("Unknown tool: " ++ "send_message" ++ ". No handler registered."))] ∧
    executeTool [("boom", fun _ => .error "kaput")] "boom" []
        = [("error", .str ("Tool " ++ "boom" ++ " failed: " ++ "kaput"))] ∧
    toolSendMessage (.error "no chat") "201281835346" "hi"
        = [("error", .str "no chat")] :=
  ⟨(c8_tool_dispatch_structured_errors [] "send_message" []).1 rfl,
   (c8_tool_dispatch_structured_errors [("boom", fun _ => .error "kaput")] "boom" []).2.1
      (fun _ => .error "kaput") "kaput" rfl rfl,
   (c8_tool_dispatch_structured_errors [] "x" []).2.2.2 "no chat" "201281835346" "hi"⟩

/-! ## Claim C10 -/

/-- C10: an incoming message with `from_me = false` whose sender matches
no configured admin number — neither verbatim nor in normalized form —
makes `handle_incoming_message` return right after the authorization gate:
whatever the rest of the handler would do, the only observable effects are
two log lines; no reply is sent, no task scheduled, nothing indexed, and
the agent is never invoked. -/
theorem c10_unauthorized_message_is_noop
    (adminNumbers sentMessageIds : List String) (msg : IncomingMsg)
    (rest : IncomingMsg → List BotEffect)
    (hfm : msg.fromMe = false)
    (hadm : ∀ a ∈ adminNumbers,
        msg.sender ≠ a ∧ normalizedSenderOf msg.sender ≠ cleanAdmin a) :
    handleIncomingMessage adminNumbers sentMessageIds rest msg
        = [.logLine ("Received message from: " ++ msg.sender),
           .logLine ("Unauthorized message from " ++ msg.sender ++
             " (Normalized: " ++ normalizedSenderOf msg.sender ++ ")")] ∧
    ∀ e ∈ handleIncomingMessage adminNumbers sentMessageIds rest msg,
        e.isLog = true := by
  have hauth : isAuthorized adminNumbers msg.sender false = false := by
    unfold isAuthorized
    simp only [Bool.false_eq_true, if_false, List.any_eq_false, decide_eq_true_eq]
    intro a ha
    rcases hadm a ha with ⟨h1, h2⟩
    simp [h1, h2]
  have heq : handleIncomingMessage adminNumbers sentMessageIds rest msg
      = [.logLine ("Received message from: " ++ msg.sender),
         .logLine ("Unauthorized message from " ++ msg.sender ++
           " (Normalized: " ++ normalizedSenderOf msg.sender ++ ")")] := by
    unfold handleIncomingMessage
    rw [hfm]
    simp [hauth]
  refine ⟨heq, ?_⟩
  rw [heq]
  intro e he
  simp only [List.mem_cons, List.not_mem_nil, or_false] at he
  rcases he with rfl | rfl
  · rfl
  · rfl

/-- Witness for C10: admin list `["+20111", "20222"]`, sender
`20999@c.us`, `from_me = false`: the handler produces only the two log
lines regardless of the continuation. -/
theorem c10_unauthorized_witness :
    handleIncomingMessage ["+20111", "20222"] []
        (fun m => [BotEffect.agentCall m.sender m.content, BotEffect.sendMessage m.sender "reply"])
        (⟨"mid-1", "20999@c.us", "20999@c.us", "hello bot", false⟩ : IncomingMsg)
        = [.logLine ("Received message from: " ++ "20999@c.us"),
           .logLine ("Unauthorized message from " ++ "20999@c.us" ++
             " (Normalized: " ++ normalizedSenderOf "20999@c.us" ++ ")")] ∧
    ∀ e ∈ handleIncomingMessage ["+20111", "20222"] []
        (fun m => [BotEffect.agentCall m.sender m.content, BotEffect.sendMessage m.sender "reply"])
        (⟨"mid-1", "20999@c.us", "20999@c.us", "hello bot", false⟩ : IncomingMsg),
        e.isLog = true :=
  c10_unauthorized_message_is_noop ["+20111", "20222"] []
    (⟨"mid-1", "20999@c.us", "20999@c.us", "hello bot", false⟩ : IncomingMsg)
    (fun m => [BotEffect.agentCall m.sender m.content, BotEffect.sendMessage m.sender "reply"])
    rfl (by decide)
